import Mathlib

/-!
Verification of the AIAPI gateway (files `config.py`, `main.py`, `start.py`).

Shallow embedding conventions:
* Python `float` parameters are modelled as exact rationals (`ℚ`); every
  numeric constant in the source is an exact decimal (`0.7`, `2.0`, `0.95`),
  written here with `mkRat` so that all comparisons compute.
* Python `str` is modelled as `String`; the string methods the source uses
  (`lower`, `rstrip`, `endswith`, `replace`, `strip`, `split`, `in`,
  truthiness, `int(...)` coercion) are modelled by executable helpers on the
  underlying character lists.
* Environment loading (`pydantic-settings`) is modelled as a function from an
  environment (a partial map from variable names to strings) to
  `Except`-style success or failure; `AZURE_OPENAI_API_KEY` is the one field
  of `Settings` with no default, so its absence fails the load.
* The two POST endpoints are modelled as functions from settings and a raw
  (unvalidated) request body to either a `PipeError` (a FastAPI validation
  error or an `HTTPException` status) or the `UpstreamCall` that would be
  handed to the provider client; response normalization of the
  dictionary-shaped (DigitalOcean) upstream result is modelled separately.
-/

namespace AIAPI

/-! ### Python string primitives -/

/-- Python `s.lower()` (ASCII case folding, which covers every string the
gateway compares). -/
def pyLower (s : String) : String := String.mk (s.toList.map Char.toLower)

/-- Python `s.rstrip("/")`: remove every trailing `'/'`. -/
def pyRstripSlash (s : String) : String :=
  String.mk ((s.toList.reverse.dropWhile (fun c => c == '/')).reverse)

/-- Python `s.endswith(suffix)`. -/
def pyEndsWith (s suffix : String) : Bool :=
  List.isSuffixOf suffix.toList s.toList

/-- Python `sub in s` (substring containment). -/
def listContains : List Char → List Char → Bool
  | [], needle => needle.isEmpty
  | h :: t, needle => List.isPrefixOf needle (h :: t) || listContains t needle

/-- Python `sub in s` on strings. -/
def pyContains (s sub : String) : Bool := listContains s.toList sub.toList

/-- Python `s.replace("Bearer ", "")` on character lists: delete every
(non-overlapping, left-to-right) occurrence of `"Bearer "`. -/
def stripBearerChars : List Char → List Char
  | [] => []
  | c :: cs =>
    if List.isPrefixOf ("Bearer ".toList) (c :: cs) then
      stripBearerChars (cs.drop 6)
    else
      c :: stripBearerChars cs
termination_by l => l.length
decreasing_by
  · simp only [List.length_drop, List.length_cons]
    omega
  · simp only [List.length_cons]
    omega

/-- Python `s.replace("Bearer ", "")`. -/
def pyStripBearer (s : String) : String := String.mk (stripBearerChars s.toList)

/-- Python `s.strip()` on character lists (leading and trailing whitespace
removed). -/
def pyStripChars (l : List Char) : List Char :=
  ((l.dropWhile Char.isWhitespace).reverse.dropWhile Char.isWhitespace).reverse

/-- Python `s.strip()`. -/
def pyStrip (s : String) : String := String.mk (pyStripChars s.toList)

/-- Python `s.split(",")` on character lists. -/
def splitCommaChars : List Char → List (List Char)
  | [] => [[]]
  | c :: cs =>
    let r := splitCommaChars cs
    if c == ',' then
      [] :: r
    else
      match r with
      | [] => [[c]]
      | g :: gs => (c :: g) :: gs

/-- Python `s.split(",")`. -/
def pySplitComma (s : String) : List String :=
  (splitCommaChars s.toList).map String.mk

/-- All-decimal-digits parse of a character list; `none` on the empty list or
any non-digit. -/
def digitsToNat? (l : List Char) : Option Nat :=
  if l = [] then none
  else if l.all Char.isDigit then
    some (l.foldl (fun a c => a * 10 + (c.toNat - 48)) 0)
  else none

/-- Python `int(s)` as pydantic applies it to an environment string: strip
whitespace, allow an optional sign, then decimal digits. -/
def pyToInt? (s : String) : Option Int :=
  match pyStripChars s.toList with
  | '-' :: rest => (digitsToNat? rest).map (fun n => -(n : Int))
  | '+' :: rest => (digitsToNat? rest).map (fun n => (n : Int))
  | l => (digitsToNat? l).map (fun n => (n : Int))

/-! ### config.py: Settings -/

/-- `config.py` `Settings`: the application settings record, as it exists
after a successful load. -/
structure Settings where
  AI_PROVIDER : String
  AZURE_OPENAI_ENDPOINT : String
  AZURE_OPENAI_API_KEY : String
  AZURE_OPENAI_MODEL : String
  AZURE_OPENAI_API_VERSION : String
  DIGITALOCEAN_INFERENCE_ENDPOINT : String
  DIGITALOCEAN_API_KEY : String
  DIGITALOCEAN_MODEL : String
  DEFAULT_SYSTEM_PROMPT : String
  API_HOST : String
  API_PORT : Int
  CORS_ORIGINS : List String
  LOG_LEVEL : String
deriving DecidableEq

/-- `config.py` `parse_cors_origins`: the wildcard stays a singleton list,
anything else is split on commas with each origin stripped. -/
def parse_cors_origins (v : String) : List String :=
  if v = "*" then ["*"] else (pySplitComma v).map pyStrip

/-- `config.py` `settings = Settings()`: load the settings from an
environment.  Every field except `AZURE_OPENAI_API_KEY` has a declared
default; `AZURE_OPENAI_API_KEY: str` has none, so a missing value is a
pydantic validation error raised at module import, before the server can
serve.  `API_PORT` must coerce to an integer. -/
def Settings.load (env : String → Option String) : Except String Settings :=
  match env "AZURE_OPENAI_API_KEY" with
  | none => .error "AZURE_OPENAI_API_KEY: field required"
  | some key =>
    match pyToInt? ((env "API_PORT").getD "8000") with
    | none => .error "API_PORT: value is not a valid integer"
    | some port =>
      .ok
        { AI_PROVIDER := (env "AI_PROVIDER").getD "azure"
          AZURE_OPENAI_ENDPOINT :=
            (env "AZURE_OPENAI_ENDPOINT").getD
              "https://agent-ai-servicess2v7.openai.azure.com/"
          AZURE_OPENAI_API_KEY := key
          AZURE_OPENAI_MODEL := (env "AZURE_OPENAI_MODEL").getD "gpt-4"
          AZURE_OPENAI_API_VERSION :=
            (env "AZURE_OPENAI_API_VERSION").getD "2024-02-15-preview"
          DIGITALOCEAN_INFERENCE_ENDPOINT :=
            (env "DIGITALOCEAN_INFERENCE_ENDPOINT").getD
              "https://inference.do-ai.run/v1"
          DIGITALOCEAN_API_KEY := (env "DIGITALOCEAN_API_KEY").getD ""
          DIGITALOCEAN_MODEL := (env "DIGITALOCEAN_MODEL").getD "openai-gpt-4o"
          DEFAULT_SYSTEM_PROMPT :=
            (env "DEFAULT_SYSTEM_PROMPT").getD "You are a helpful AI assistant."
          API_HOST := (env "API_HOST").getD "0.0.0.0"
          API_PORT := port
          CORS_ORIGINS := parse_cors_origins ((env "CORS_ORIGINS").getD "*")
          LOG_LEVEL := (env "LOG_LEVEL").getD "INFO" }

/-! ### main.py: provider client factory -/

/-- The client object `get_openai_client` returns: the ad-hoc
`DigitalOceanClient` (endpoint already `rstrip`-ped, key with `"Bearer "`
removed), an `AzureOpenAI` client, or a plain `OpenAI` client. -/
inductive ClientKind where
  | digitalocean (endpoint apiKey : String)
  | azureOpenAI (apiKey apiVersion azureEndpoint : String)
  | openAICompat (apiKey baseUrl : String)
deriving DecidableEq

/-- `main.py` `get_openai_client`: branch on the case-folded `AI_PROVIDER`;
the Azure branch further branches on whether the endpoint contains
`"azure"`; any other provider raises a `ValueError` (the error variant). -/
def get_openai_client (st : Settings) : Except String ClientKind :=
  if pyLower st.AI_PROVIDER = "digitalocean" then
    .ok (.digitalocean (pyRstripSlash st.DIGITALOCEAN_INFERENCE_ENDPOINT)
      (pyStripBearer st.DIGITALOCEAN_API_KEY))
  else if pyLower st.AI_PROVIDER = "azure" then
    if pyContains (pyLower st.AZURE_OPENAI_ENDPOINT) "azure" then
      .ok (.azureOpenAI st.AZURE_OPENAI_API_KEY st.AZURE_OPENAI_API_VERSION
        st.AZURE_OPENAI_ENDPOINT)
    else
      .ok (.openAICompat st.AZURE_OPENAI_API_KEY st.AZURE_OPENAI_ENDPOINT)
  else
    .error ("Invalid AI_PROVIDER: " ++ st.AI_PROVIDER ++
      ". Must be azure or digitalocean")

/-- `main.py` `get_model_name`: the DigitalOcean model for that provider,
the Azure model for every other provider value. -/
def get_model_name (st : Settings) : String :=
  if pyLower st.AI_PROVIDER = "digitalocean" then st.DIGITALOCEAN_MODEL
  else st.AZURE_OPENAI_MODEL

/-- `DigitalOceanClient.Chat.create` URL handling: if the (already
`rstrip`-ped) endpoint ends with `"/chat/completions"` use it as is,
otherwise append the suffix. -/
def digitalOceanChatUrl (endpoint : String) : String :=
  if pyEndsWith endpoint "/chat/completions" then endpoint
  else endpoint ++ "/chat/completions"

/-- The URL actually POSTed for a configured DigitalOcean endpoint string:
`__init__` strips trailing slashes, `create` handles the suffix. -/
def digitalOceanPostUrl (configured : String) : String :=
  digitalOceanChatUrl (pyRstripSlash configured)

/-! ### main.py: request models and validation -/

/-- `main.py` `Message`. -/
structure Message where
  role : String
  content : String
deriving DecidableEq

/-- Default for `temperature` (`0.7`). -/
def defaultTemperature : ℚ := mkRat 7 10

/-- Default for `max_tokens` (`800`). -/
def defaultMaxTokens : Int := 800

/-- Default for `top_p` (`0.95`). -/
def defaultTopP : ℚ := mkRat 19 20

/-- A `ChatRequest` body as posted, before FastAPI/pydantic validation:
every field except `messages` may be absent. -/
structure RawChatRequest where
  messages : List Message
  system_prompt : Option String := none
  temperature : Option ℚ := none
  max_tokens : Option Int := none
  top_p : Option ℚ := none
deriving DecidableEq

/-- `main.py` `ChatRequest` after validation: defaults applied, bounds
checked. -/
structure ChatRequest where
  messages : List Message
  system_prompt : Option String
  temperature : ℚ
  max_tokens : Int
  top_p : ℚ
deriving DecidableEq

/-- Pydantic validation of `ChatRequest`: `temperature ∈ [0, 2]`,
`max_tokens ∈ [1, 4000]`, `top_p ∈ [0, 1]`; the `messages` list itself has
no constraint beyond its element type.  A failure is FastAPI's 422 response,
issued before the handler body runs. -/
def validateChatRequest (r : RawChatRequest) : Except String ChatRequest :=
  let t := r.temperature.getD defaultTemperature
  let mt := r.max_tokens.getD defaultMaxTokens
  let tp := r.top_p.getD defaultTopP
  if ¬ (0 ≤ t ∧ t ≤ 2) then .error "temperature"
  else if ¬ (1 ≤ mt ∧ mt ≤ 4000) then .error "max_tokens"
  else if ¬ (0 ≤ tp ∧ tp ≤ 1) then .error "top_p"
  else .ok ⟨r.messages, r.system_prompt, t, mt, tp⟩

/-- A `CompletionRequest` body as posted, before validation. -/
structure RawCompletionRequest where
  prompt : String
  system_prompt : Option String := none
  temperature : Option ℚ := none
  max_tokens : Option Int := none
deriving DecidableEq

/-- `main.py` `CompletionRequest` after validation. -/
structure CompletionRequest where
  prompt : String
  system_prompt : Option String
  temperature : ℚ
  max_tokens : Int
deriving DecidableEq

/-- Pydantic validation of `CompletionRequest`: same numeric ranges as the
chat request; there is no `top_p` field on this path. -/
def validateCompletionRequest (r : RawCompletionRequest) :
    Except String CompletionRequest :=
  let t := r.temperature.getD defaultTemperature
  let mt := r.max_tokens.getD defaultMaxTokens
  if ¬ (0 ≤ t ∧ t ≤ 2) then .error "temperature"
  else if ¬ (1 ≤ mt ∧ mt ≤ 4000) then .error "max_tokens"
  else .ok ⟨r.prompt, r.system_prompt, t, mt⟩

/-! ### main.py: message assembly and the upstream call -/

/-- The system prompt the handlers use:
`request.system_prompt or settings.DEFAULT_SYSTEM_PROMPT` — the default
replaces both an absent and an empty request prompt. -/
def resolveSystemPrompt (reqPrompt : Option String) (defaultPrompt : String) :
    String :=
  match reqPrompt with
  | none => defaultPrompt
  | some s => if s = "" then defaultPrompt else s

/-- `chat_completion` message assembly (`main.py` lines 256–265): prepend a
system message when the resolved prompt is truthy (non-empty), then append
every conversation message as a fresh role/content pair. -/
def buildChatMessages (req : ChatRequest) (defaultPrompt : String) :
    List Message :=
  let sp := resolveSystemPrompt req.system_prompt defaultPrompt
  (if sp = "" then [] else [Message.mk "system" sp]) ++
    req.messages.map (fun m => Message.mk m.role m.content)

/-- `simple_completion` message assembly (`main.py` lines 319–327): optional
system message, then exactly one user message carrying the prompt. -/
def buildCompletionMessages (req : CompletionRequest) (defaultPrompt : String) :
    List Message :=
  let sp := resolveSystemPrompt req.system_prompt defaultPrompt
  (if sp = "" then [] else [Message.mk "system" sp]) ++
    [Message.mk "user" req.prompt]

/-- The arguments of the one `client.chat.completions.create(...)` call a
handler makes; `top_p` is `none` when the keyword is not passed at all (the
completion path). -/
structure UpstreamCall where
  model : String
  messages : List Message
  temperature : ℚ
  max_tokens : Int
  top_p : Option ℚ
deriving DecidableEq

/-- How a request fails before a successful upstream call: a FastAPI
validation error (HTTP 422, never reaching the handler) or an
`HTTPException` with the given status raised inside the handler. -/
inductive PipeError where
  | validation (field : String)
  | http (statusCode : Nat)
deriving DecidableEq

/-- `main.py` `chat_completion` handler body, up to the upstream call: the
client is resolved first (an invalid provider becomes an HTTP 500 via the
handler's blanket `except`), then the messages are assembled and the create
call is issued with `model`, `messages`, `temperature`, `max_tokens` and
`top_p`. -/
def chat_completion (st : Settings) (req : ChatRequest) :
    Except PipeError UpstreamCall :=
  match get_openai_client st with
  | .error _ => .error (.http 500)
  | .ok _client =>
    .ok
      { model := get_model_name st
        messages := buildChatMessages req st.DEFAULT_SYSTEM_PROMPT
        temperature := req.temperature
        max_tokens := req.max_tokens
        top_p := some req.top_p }

/-- `main.py` `simple_completion` handler body, up to the upstream call: as
for chat, but the create call carries no `top_p` keyword. -/
def simple_completion (st : Settings) (req : CompletionRequest) :
    Except PipeError UpstreamCall :=
  match get_openai_client st with
  | .error _ => .error (.http 500)
  | .ok _client =>
    .ok
      { model := get_model_name st
        messages := buildCompletionMessages req st.DEFAULT_SYSTEM_PROMPT
        temperature := req.temperature
        max_tokens := req.max_tokens
        top_p := none }

/-- `POST /api/chat` end to end, up to the upstream call: FastAPI validation
first, then the handler. -/
def chatEndpoint (st : Settings) (raw : RawChatRequest) :
    Except PipeError UpstreamCall :=
  match validateChatRequest raw with
  | .error f => .error (.validation f)
  | .ok req => chat_completion st req

/-- `POST /api/completion` end to end, up to the upstream call. -/
def completionEndpoint (st : Settings) (raw : RawCompletionRequest) :
    Except PipeError UpstreamCall :=
  match validateCompletionRequest raw with
  | .error f => .error (.validation f)
  | .ok req => simple_completion st req

/-! ### main.py: response normalization (dictionary shape) -/

/-- The `message` dictionary of one upstream choice. -/
structure DictMessage where
  content : Option String
deriving DecidableEq

/-- One entry of the upstream `choices` list. -/
structure DictChoice where
  message : Option DictMessage
deriving DecidableEq

/-- A dictionary-shaped upstream result as the DigitalOcean client returns
it: each field may be missing. -/
structure DictResult where
  choices : Option (List DictChoice)
  model : Option String
  usage : Option (List (String × Int))
deriving DecidableEq

/-- `main.py` `ChatResponse`. -/
structure ChatResponse where
  response : String
  model : String
  usage : List (String × Int)
deriving DecidableEq

/-- The `isinstance(response, dict)` branch of the handlers (`main.py`
lines 278–281): `response['choices'][0]['message']['content']` is the text —
a missing key or empty list raises (and becomes an HTTP 500) — while
`model` and `usage` fall back to the configured model name and the empty
mapping via `.get`. -/
def normalizeDictResult (r : DictResult) (fallbackModel : String) :
    Except String ChatResponse :=
  match r.choices with
  | none => .error "KeyError: choices"
  | some [] => .error "IndexError: list index out of range"
  | some (c :: _) =>
    match c.message with
    | none => .error "KeyError: message"
    | some m =>
      match m.content with
      | none => .error "KeyError: content"
      | some text => .ok ⟨text, r.model.getD fallbackModel, r.usage.getD []⟩

/-! ### main.py: health endpoint -/

/-- A JSON value in the health configuration summary: a string or a
boolean. -/
inductive ConfigValue where
  | s (v : String)
  | b (v : Bool)
deriving DecidableEq

/-- `main.py` `HealthResponse`. -/
structure HealthResponse where
  status : String
  message : String
  configuration : List (String × ConfigValue)
deriving DecidableEq

/-- Association-list lookup for the configuration summary. -/
def lookupCfg (k : String) : List (String × ConfigValue) → Option ConfigValue
  | [] => none
  | (k2, v) :: rest => if k = k2 then some v else lookupCfg k rest

/-- `main.py` `health_check` (lines 215–238): always `"healthy"`;
endpoint/key presence is reported as `bool(...)` of the configured strings,
never the strings themselves; the Azure summary (with `api_version`) is used
for every provider that is not `digitalocean`. -/
def health_check (st : Settings) : HealthResponse :=
  if pyLower st.AI_PROVIDER = "digitalocean" then
    { status := "healthy"
      message := "Service is running"
      configuration :=
        [("ai_provider", .s st.AI_PROVIDER),
         ("endpoint_configured", .b (st.DIGITALOCEAN_INFERENCE_ENDPOINT != "")),
         ("api_key_configured", .b (st.DIGITALOCEAN_API_KEY != "")),
         ("model", .s st.DIGITALOCEAN_MODEL)] }
  else
    { status := "healthy"
      message := "Service is running"
      configuration :=
        [("ai_provider", .s st.AI_PROVIDER),
         ("endpoint_configured", .b (st.AZURE_OPENAI_ENDPOINT != "")),
         ("api_key_configured", .b (st.AZURE_OPENAI_API_KEY != "")),
         ("model", .s st.AZURE_OPENAI_MODEL),
         ("api_version", .s st.AZURE_OPENAI_API_VERSION)] }

/-! ### Concrete fixtures used by witnesses and counterexamples -/

/-- Settings as loaded with every default of `config.py` and the Azure key
set to `"k"`. -/
def stAzure : Settings :=
  { AI_PROVIDER := "azure"
    AZURE_OPENAI_ENDPOINT := "https://agent-ai-servicess2v7.openai.azure.com/"
    AZURE_OPENAI_API_KEY := "k"
    AZURE_OPENAI_MODEL := "gpt-4"
    AZURE_OPENAI_API_VERSION := "2024-02-15-preview"
    DIGITALOCEAN_INFERENCE_ENDPOINT := "https://inference.do-ai.run/v1"
    DIGITALOCEAN_API_KEY := ""
    DIGITALOCEAN_MODEL := "openai-gpt-4o"
    DEFAULT_SYSTEM_PROMPT := "You are a helpful AI assistant."
    API_HOST := "0.0.0.0"
    API_PORT := 8000
    CORS_ORIGINS := ["*"]
    LOG_LEVEL := "INFO" }

/-- The same settings with the unsupported provider value `"aws"`. -/
def stAws : Settings := { stAzure with AI_PROVIDER := "aws" }

/-- The same settings with the Azure key set (as an environment variable can
be) to the empty string. -/
def stAzureNoKey : Settings := { stAzure with AZURE_OPENAI_API_KEY := "" }

/-- An environment that sets `AI_PROVIDER=aws` and the required Azure key,
nothing else. -/
def envAws : String → Option String := fun k =>
  if k = "AI_PROVIDER" then some "aws"
  else if k = "AZURE_OPENAI_API_KEY" then some "k"
  else none

/-- An environment that sets every variable of `config.py` except
`AZURE_OPENAI_API_KEY`, which is left unset. -/
def envNoKey : String → Option String := fun k =>
  if k = "AI_PROVIDER" then some "azure"
  else if k = "AZURE_OPENAI_ENDPOINT" then
    some "https://agent-ai-servicess2v7.openai.azure.com/"
  else if k = "AZURE_OPENAI_MODEL" then some "gpt-4"
  else if k = "AZURE_OPENAI_API_VERSION" then some "2024-02-15-preview"
  else if k = "DIGITALOCEAN_INFERENCE_ENDPOINT" then
    some "https://inference.do-ai.run/v1"
  else if k = "DIGITALOCEAN_API_KEY" then some ""
  else if k = "DIGITALOCEAN_MODEL" then some "openai-gpt-4o"
  else if k = "DEFAULT_SYSTEM_PROMPT" then some "You are a helpful AI assistant."
  else if k = "API_HOST" then some "0.0.0.0"
  else if k = "API_PORT" then some "8000"
  else if k = "CORS_ORIGINS" then some "*"
  else if k = "LOG_LEVEL" then some "INFO"
  else none

/-- A posted chat body whose `messages` list is empty and whose other fields
are absent. -/
def rawEmptyMessages : RawChatRequest := { messages := [] }

/-- A posted chat body with one user message and all defaults. -/
def rawOneMessage : RawChatRequest := { messages := [Message.mk "user" "hi"] }

/-- A posted completion body with only a prompt. -/
def rawCompletionW : RawCompletionRequest := { prompt := "Say hi" }

/-- A validated chat request with a custom system prompt. -/
def chatReqW : ChatRequest :=
  { messages := [Message.mk "user" "hi"]
    system_prompt := some "Be brief."
    temperature := 1
    max_tokens := 800
    top_p := 1 }

/-- The upstream call `chat_completion stAzure chatReqW` produces. -/
def callW : UpstreamCall :=
  { model := "gpt-4"
    messages := [Message.mk "system" "Be brief.", Message.mk "user" "hi"]
    temperature := 1
    max_tokens := 800
    top_p := some 1 }

/-- The upstream call `completionEndpoint stAzure rawCompletionW`
produces. -/
def callCompW : UpstreamCall :=
  { model := "gpt-4"
    messages := [Message.mk "system" "You are a helpful AI assistant.",
                 Message.mk "user" "Say hi"]
    temperature := mkRat 7 10
    max_tokens := 800
    top_p := none }

/-- The upstream call `chatEndpoint stAzure rawOneMessage` produces. -/
def callChatW : UpstreamCall :=
  { model := "gpt-4"
    messages := [Message.mk "system" "You are a helpful AI assistant.",
                 Message.mk "user" "hi"]
    temperature := mkRat 7 10
    max_tokens := 800
    top_p := some (mkRat 19 20) }

/-- The dictionary-shaped upstream result of the spec's worked example. -/
def dictResultW : DictResult :=
  { choices := some [{ message := some { content := some "hi" } }]
    model := some "m1"
    usage := some [("total_tokens", 5)] }

/-! ### Helper lemmas -/

/-- Rebuilding a message from its own role and content is the identity (the
handlers copy each message field by field). -/
theorem message_map_eta (l : List Message) :
    l.map (fun m => Message.mk m.role m.content) = l := by
  induction l with
  | nil => rfl
  | cons m t ih => cases m; simp [ih]

/-- Appending a suffix makes `pyEndsWith` hold. -/
theorem pyEndsWith_append (a b : String) : pyEndsWith (a ++ b) b = true := by
  unfold pyEndsWith
  simp only [List.isSuffixOf_iff_suffix]
  have hab : (a ++ b).toList = a.toList ++ b.toList := String.data_append a b
  rw [hab]
  exact List.suffix_append _ _

/-- Dropping leading slashes does nothing to a character list that starts
with the reversed `"/chat/completions"`. -/
theorem dropWhile_slash_completions (t : List Char) :
    List.dropWhile (fun c => c == '/') ("/chat/completions".toList.reverse ++ t) =
      "/chat/completions".toList.reverse ++ t := by
  show List.dropWhile (fun c => c == '/') ('s' :: ("noitelpmoc/tahc/".toList ++ t)) =
    's' :: ("noitelpmoc/tahc/".toList ++ t)
  rw [List.dropWhile_cons, if_neg (by decide)]

/-- A string ending in `"/chat/completions"` has no trailing slash, so
`rstrip("/")` leaves it unchanged. -/
theorem rstrip_keeps_chat_suffix (s : String)
    (h : pyEndsWith s "/chat/completions" = true) : pyRstripSlash s = s := by
  have hsuf : "/chat/completions".toList <:+ s.toList := by
    have h2 := h
    unfold pyEndsWith at h2
    exact List.isSuffixOf_iff_suffix.mp h2
  obtain ⟨t, ht⟩ := hsuf
  unfold pyRstripSlash
  have h3 : s.toList.reverse.dropWhile (fun c => c == '/') = s.toList.reverse := by
    rw [← ht, List.reverse_append]
    exact dropWhile_slash_completions t.reverse
  rw [h3, List.reverse_reverse]
  rfl

/-! ### Claim theorems -/

/-- C1: for every valid `ChatRequest` that reaches the chat handler, the
message sequence sent upstream is exactly one system message — whose content
is the request system prompt when present and non-empty, else the default —
prepended when the effective prompt is non-empty, followed by the request
messages in order, unchanged. -/
theorem chat_message_assembly (st : Settings) (req : ChatRequest)
    (call : UpstreamCall) (h : chat_completion st req = .ok call) :
    (∀ s, req.system_prompt = some s → s ≠ "" →
      call.messages = Message.mk "system" s :: req.messages) ∧
    ((req.system_prompt = none ∨ req.system_prompt = some "") →
      st.DEFAULT_SYSTEM_PROMPT ≠ "" →
      call.messages = Message.mk "system" st.DEFAULT_SYSTEM_PROMPT :: req.messages) ∧
    ((req.system_prompt = none ∨ req.system_prompt = some "") →
      st.DEFAULT_SYSTEM_PROMPT = "" →
      call.messages = req.messages) := by
  have hmsg : call.messages = buildChatMessages req st.DEFAULT_SYSTEM_PROMPT := by
    unfold chat_completion at h
    cases hc : get_openai_client st with
    | error e => rw [hc] at h; simp at h
    | ok c =>
      rw [hc] at h
      simp only [Except.ok.injEq] at h
      subst h
      rfl
  rw [hmsg]
  unfold buildChatMessages resolveSystemPrompt
  refine ⟨?_, ?_, ?_⟩
  · intro s hs hne
    rw [hs]
    simp [hne, message_map_eta]
  · rintro (hn | hs) hd
    · rw [hn]; simp [hd, message_map_eta]
    · rw [hs]; simp [hd, message_map_eta]
  · rintro (hn | hs) hd
    · rw [hn]; simp [hd, message_map_eta]
    · rw [hs]; simp [hd, message_map_eta]

/-- Witness for C1 at a concrete request with a custom system prompt. -/
theorem chat_message_assembly_witness :
    callW.messages = Message.mk "system" "Be brief." :: chatReqW.messages :=
  (chat_message_assembly stAzure chatReqW callW (by rfl)).1 "Be brief." rfl
    (by decide)

/-- C8: for every `CompletionRequest`, the built message sequence is an
optional system message followed by exactly one user message carrying the
prompt — length 1 or 2 — and never contains an assistant-role message. -/
theorem completion_message_shape (req : CompletionRequest) (d : String) :
    (buildCompletionMessages req d = [Message.mk "user" req.prompt] ∨
      (∃ sp, buildCompletionMessages req d =
        [Message.mk "system" sp, Message.mk "user" req.prompt])) ∧
    ((buildCompletionMessages req d).length = 1 ∨
      (buildCompletionMessages req d).length = 2) ∧
    (buildCompletionMessages req d).all (fun m => m.role != "assistant") = true := by
  by_cases hsp : resolveSystemPrompt req.system_prompt d = ""
  · refine ⟨Or.inl ?_, Or.inl ?_, ?_⟩ <;>
      simp [buildCompletionMessages, hsp]
  · refine ⟨Or.inr ⟨resolveSystemPrompt req.system_prompt d, ?_⟩, Or.inr ?_, ?_⟩ <;>
      simp [buildCompletionMessages, hsp]

/-- C9: the completion pipeline never forwards `top_p` (the create call has
no `top_p` keyword), while the chat pipeline always forwards one. -/
theorem completion_omits_top_p (st : Settings) :
    (∀ raw call, completionEndpoint st raw = .ok call → call.top_p = none) ∧
    (∀ raw call, chatEndpoint st raw = .ok call → ∃ p, call.top_p = some p) := by
  constructor
  · intro raw call h
    unfold completionEndpoint at h
    cases hv : validateCompletionRequest raw with
    | error e => rw [hv] at h; simp at h
    | ok req =>
      rw [hv] at h
      unfold simple_completion at h
      cases hc : get_openai_client st with
      | error e => rw [hc] at h; simp at h
      | ok c =>
        rw [hc] at h
        simp only [Except.ok.injEq] at h
        subst h
        rfl
  · intro raw call h
    unfold chatEndpoint at h
    cases hv : validateChatRequest raw with
    | error e => rw [hv] at h; simp at h
    | ok req =>
      rw [hv] at h
      unfold chat_completion at h
      cases hc : get_openai_client st with
      | error e => rw [hc] at h; simp at h
      | ok c =>
        rw [hc] at h
        simp only [Except.ok.injEq] at h
        subst h
        exact ⟨req.top_p, rfl⟩

/-- Witness for C9 at the concrete completion and chat fixtures. -/
theorem completion_omits_top_p_witness :
    callCompW.top_p = none ∧ ∃ p, callChatW.top_p = some p :=
  ⟨(completion_omits_top_p stAzure).1 rawCompletionW callCompW (by rfl),
   (completion_omits_top_p stAzure).2 rawOneMessage callChatW (by rfl)⟩

/-- C2 counterexample: a chat request with an empty `messages` list is not
rejected — validation passes and the pipeline produces an upstream call
(here carrying only the default system message), so the upstream client is
invoked. -/
theorem chat_empty_messages_counterexample :
    chatEndpoint stAzure rawEmptyMessages =
      .ok { model := "gpt-4"
            messages := [Message.mk "system" "You are a helpful AI assistant."]
            temperature := mkRat 7 10
            max_tokens := 800
            top_p := some (mkRat 19 20) } := by rfl

/-- C2 (amended): a chat request with an empty `messages` list passes
validation (the model places no minimum length on `messages`) and the
upstream call is made, its message list holding only the optional system
message. -/
theorem chat_empty_messages_accepted (st : Settings) (raw : RawChatRequest)
    (hm : raw.messages = []) (ht : raw.temperature = none)
    (hk : raw.max_tokens = none) (hp : raw.top_p = none)
    (hprov : pyLower st.AI_PROVIDER = "azure") :
    ∃ call, chatEndpoint st raw = .ok call ∧
      call.messages =
        (if resolveSystemPrompt raw.system_prompt st.DEFAULT_SYSTEM_PROMPT = ""
         then []
         else [Message.mk "system"
           (resolveSystemPrompt raw.system_prompt st.DEFAULT_SYSTEM_PROMPT)]) := by
  have hv : validateChatRequest raw =
      .ok ⟨raw.messages, raw.system_prompt, defaultTemperature, defaultMaxTokens,
        defaultTopP⟩ := by
    unfold validateChatRequest
    rw [ht, hk, hp]
    simp only [Option.getD_none]
    rw [if_neg (by decide), if_neg (by decide), if_neg (by decide)]
  obtain ⟨c, hc⟩ : ∃ c, get_openai_client st = .ok c := by
    unfold get_openai_client
    rw [hprov]
    rw [if_neg (by decide), if_pos rfl]
    by_cases hpc : pyContains (pyLower st.AZURE_OPENAI_ENDPOINT) "azure" = true
    · exact ⟨_, by rw [if_pos hpc]⟩
    · exact ⟨_, by rw [if_neg hpc]⟩
  refine ⟨{ model := get_model_name st
            messages := buildChatMessages
              ⟨raw.messages, raw.system_prompt, defaultTemperature,
                defaultMaxTokens, defaultTopP⟩ st.DEFAULT_SYSTEM_PROMPT
            temperature := defaultTemperature
            max_tokens := defaultMaxTokens
            top_p := some defaultTopP }, ?_, ?_⟩
  · unfold chatEndpoint
    rw [hv]
    unfold chat_completion
    rw [hc]
  · unfold buildChatMessages
    rw [hm]
    simp

/-- Witness for the amended C2 at the concrete empty-messages fixture. -/
theorem chat_empty_messages_accepted_witness :
    ∃ call, chatEndpoint stAzure rawEmptyMessages = .ok call ∧
      call.messages =
        (if resolveSystemPrompt rawEmptyMessages.system_prompt
            stAzure.DEFAULT_SYSTEM_PROMPT = ""
         then []
         else [Message.mk "system"
           (resolveSystemPrompt rawEmptyMessages.system_prompt
             stAzure.DEFAULT_SYSTEM_PROMPT)]) :=
  chat_empty_messages_accepted stAzure rawEmptyMessages rfl rfl rfl rfl (by rfl)

/-- C3 counterexample: with `AI_PROVIDER=aws` the settings load succeeds (so
startup does not refuse to serve), the health endpoint still reports
healthy, and the invalid provider surfaces as a per-request HTTP 500 on a
valid chat request. -/
theorem invalid_provider_counterexample :
    Settings.load envAws = .ok stAws ∧
    (health_check stAws).status = "healthy" ∧
    chatEndpoint stAws rawOneMessage = .error (.http 500) :=
  ⟨by rfl, by rfl, by rfl⟩

/-- C3 (amended): an `AI_PROVIDER` that is neither `azure` nor
`digitalocean` is not checked at startup (settings loading succeeds whenever
the required key is present and the port parses, whatever the provider
value); instead every validated chat request fails with a per-request HTTP
500 from the client factory, while the health endpoint keeps reporting
healthy. -/
theorem invalid_provider_per_request (st : Settings) (raw : RawChatRequest)
    (req : ChatRequest)
    (h1 : pyLower st.AI_PROVIDER ≠ "azure")
    (h2 : pyLower st.AI_PROVIDER ≠ "digitalocean")
    (hv : validateChatRequest raw = .ok req) :
    (∃ e, get_openai_client st = .error e) ∧
    chatEndpoint st raw = .error (.http 500) ∧
    (health_check st).status = "healthy" ∧
    (∀ env : String → Option String,
      (env "AZURE_OPENAI_API_KEY").isSome = true →
      (pyToInt? ((env "API_PORT").getD "8000")).isSome = true →
      ∃ st2, Settings.load env = .ok st2) := by
  have he : ∃ e, get_openai_client st = .error e := by
    unfold get_openai_client
    rw [if_neg h2, if_neg h1]
    exact ⟨_, rfl⟩
  obtain ⟨e, he2⟩ := he
  refine ⟨⟨e, he2⟩, ?_, ?_, ?_⟩
  · unfold chatEndpoint
    rw [hv]
    unfold chat_completion
    rw [he2]
  · unfold health_check
    rw [if_neg h2]
  · intro env hk hp
    unfold Settings.load
    cases hke : env "AZURE_OPENAI_API_KEY" with
    | none => rw [hke] at hk; simp at hk
    | some k =>
      cases hpi : pyToInt? ((env "API_PORT").getD "8000") with
      | none => rw [hpi] at hp; simp at hp
      | some port => exact ⟨_, rfl⟩

/-- Witness for the amended C3 at the concrete `aws` fixture. -/
theorem invalid_provider_per_request_witness :
    chatEndpoint stAws rawOneMessage = .error (.http 500) :=
  (invalid_provider_per_request stAws rawOneMessage
    ⟨[Message.mk "user" "hi"], none, defaultTemperature, defaultMaxTokens,
      defaultTopP⟩
    (by decide) (by decide) (by rfl)).2.1

/-- C4: a well-formed dictionary-shaped upstream result normalizes to the
text of `choices[0].message.content`, the result model when present else the
configured model name of the active provider, and the result usage when
present else the empty mapping. -/
theorem dict_normalization (st : Settings) (r : DictResult)
    (c : DictChoice) (rest : List DictChoice) (m : DictMessage) (text : String)
    (hc : r.choices = some (c :: rest)) (hm : c.message = some m)
    (ht : m.content = some text) :
    normalizeDictResult r (get_model_name st) =
      .ok { response := text
            model := r.model.getD (get_model_name st)
            usage := r.usage.getD [] } ∧
    (∀ mm, r.model = some mm → r.model.getD (get_model_name st) = mm) ∧
    (r.model = none → r.model.getD (get_model_name st) = get_model_name st) ∧
    (r.usage = none → r.usage.getD [] = ([] : List (String × Int))) := by
  refine ⟨?_, ?_, ?_, ?_⟩
  · simp only [normalizeDictResult, hc, hm, ht]
  · intro mm hmm; rw [hmm]; rfl
  · intro hmm; rw [hmm]; rfl
  · intro hu; rw [hu]; rfl

/-- Witness for C4 at the spec's worked example. -/
theorem dict_normalization_witness :
    normalizeDictResult dictResultW (get_model_name stAzure) =
      .ok { response := "hi", model := "m1", usage := [("total_tokens", 5)] } :=
  (dict_normalization stAzure dictResultW
    { message := some { content := some "hi" } } []
    { content := some "hi" } "hi" rfl rfl rfl).1

/-- C5: validation accepts temperature exactly 2 and rejects any temperature
above 2 (2.5 and 2.0001 among them); `max_tokens` is accepted on all of
`[1, 4000]` and rejected at 0 and 4001; every rejection is a validation
(client) error issued before the upstream call. -/
theorem sampling_validation (st : Settings) (msgs : List Message) :
    (∃ req, validateChatRequest { messages := msgs, temperature := some 2 } =
      .ok req) ∧
    validateChatRequest { messages := msgs, temperature := some (mkRat 5 2) } =
      .error "temperature" ∧
    validateChatRequest
      { messages := msgs, temperature := some (mkRat 20001 10000) } =
      .error "temperature" ∧
    (∀ (raw : RawChatRequest) (t : ℚ), raw.temperature = some t → 2 < t →
      validateChatRequest raw = .error "temperature") ∧
    (∀ mt : Int, 1 ≤ mt → mt ≤ 4000 →
      ∃ req, validateChatRequest { messages := msgs, max_tokens := some mt } =
        .ok req) ∧
    validateChatRequest { messages := msgs, max_tokens := some 0 } =
      .error "max_tokens" ∧
    validateChatRequest { messages := msgs, max_tokens := some 4001 } =
      .error "max_tokens" ∧
    (∀ raw e, validateChatRequest raw = .error e →
      chatEndpoint st raw = .error (.validation e)) := by
  refine ⟨?_, ?_, ?_, ?_, ?_, ?_, ?_, ?_⟩
  · refine ⟨⟨msgs, none, 2, defaultMaxTokens, defaultTopP⟩, ?_⟩
    unfold validateChatRequest
    simp only [Option.getD_some, Option.getD_none]
    rw [if_neg (by decide), if_neg (by decide), if_neg (by decide)]
  · unfold validateChatRequest
    simp only [Option.getD_some]
    rw [if_pos (by rw [Rat.mkRat_eq_div]; norm_num)]
  · unfold validateChatRequest
    simp only [Option.getD_some]
    rw [if_pos (by rw [Rat.mkRat_eq_div]; norm_num)]
  · intro raw t hsome hgt
    have hcond : ¬ (0 ≤ t ∧ t ≤ 2) := fun hcon => absurd hgt (not_lt.mpr hcon.2)
    unfold validateChatRequest
    rw [hsome]
    simp only [Option.getD_some]
    rw [if_pos hcond]
  · intro mt h1 h4
    have hcond : ¬ ¬ (1 ≤ mt ∧ mt ≤ 4000) := fun hcon => hcon ⟨h1, h4⟩
    refine ⟨⟨msgs, none, defaultTemperature, mt, defaultTopP⟩, ?_⟩
    unfold validateChatRequest
    simp only [Option.getD_some, Option.getD_none]
    rw [if_neg (by decide), if_neg hcond, if_neg (by decide)]
  · unfold validateChatRequest
    simp only [Option.getD_some, Option.getD_none]
    rw [if_neg (by decide), if_pos (by decide)]
  · unfold validateChatRequest
    simp only [Option.getD_some, Option.getD_none]
    rw [if_neg (by decide), if_pos (by decide)]
  · intro raw e hv
    unfold chatEndpoint
    rw [hv]

/-- Witness for C5: 2.5 rejected, and `max_tokens = 0` gives a validation
error before any upstream call. -/
theorem sampling_validation_witness :
    validateChatRequest
      { messages := ([] : List Message), temperature := some (mkRat 5 2) } =
      .error "temperature" ∧
    chatEndpoint stAzure { messages := [], max_tokens := some 0 } =
      .error (.validation "max_tokens") :=
  ⟨(sampling_validation stAzure []).2.1,
   (sampling_validation stAzure []).2.2.2.2.2.2.2
     { messages := [], max_tokens := some 0 } "max_tokens" (by rfl)⟩

/-- C6 counterexample: with every other variable set and only
`AZURE_OPENAI_API_KEY` unset, settings loading fails — the process refuses
to start, so `/health` cannot return 200 in that scenario. -/
theorem health_unset_key_counterexample :
    Settings.load envNoKey = .error "AZURE_OPENAI_API_KEY: field required" := by
  rfl

/-- C6 (amended): for every loaded `Settings` (the process is serving),
`/health` reports status healthy; endpoint and key presence appear only as
booleans; with `AZURE_OPENAI_API_KEY` set to the empty string (rather than
unset, which prevents startup) the Azure summary reports
`api_key_configured = false`; and every string value in the summary is the
provider name, a model name, or the API version — never the key or the
endpoint. -/
theorem health_always_healthy (st : Settings) :
    (health_check st).status = "healthy" ∧
    (st.AZURE_OPENAI_API_KEY = "" → pyLower st.AI_PROVIDER ≠ "digitalocean" →
      lookupCfg "api_key_configured" (health_check st).configuration =
        some (ConfigValue.b false)) ∧
    (∃ b1 b2,
      lookupCfg "endpoint_configured" (health_check st).configuration =
        some (ConfigValue.b b1) ∧
      lookupCfg "api_key_configured" (health_check st).configuration =
        some (ConfigValue.b b2)) ∧
    (∀ k v, (k, ConfigValue.s v) ∈ (health_check st).configuration →
      v = st.AI_PROVIDER ∨ v = st.DIGITALOCEAN_MODEL ∨
        v = st.AZURE_OPENAI_MODEL ∨ v = st.AZURE_OPENAI_API_VERSION) := by
  by_cases hd : pyLower st.AI_PROVIDER = "digitalocean"
  · refine ⟨?_, ?_, ⟨st.DIGITALOCEAN_INFERENCE_ENDPOINT != "",
      st.DIGITALOCEAN_API_KEY != "", ?_, ?_⟩, ?_⟩
    · unfold health_check
      rw [if_pos hd]
    · intro _ habs
      exact absurd hd habs
    · unfold health_check
      rw [if_pos hd]
      rfl
    · unfold health_check
      rw [if_pos hd]
      rfl
    · intro k v hmem
      unfold health_check at hmem
      rw [if_pos hd] at hmem
      simp only [List.mem_cons, List.not_mem_nil, or_false, Prod.mk.injEq] at hmem
      rcases hmem with ⟨_, h⟩ | ⟨_, h⟩ | ⟨_, h⟩ | ⟨_, h⟩ <;> cases h <;> simp
  · refine ⟨?_, ?_, ⟨st.AZURE_OPENAI_ENDPOINT != "",
      st.AZURE_OPENAI_API_KEY != "", ?_, ?_⟩, ?_⟩
    · unfold health_check
      rw [if_neg hd]
    · intro hk _
      unfold health_check
      rw [if_neg hd]
      show some (ConfigValue.b (st.AZURE_OPENAI_API_KEY != "")) =
        some (ConfigValue.b false)
      rw [hk]
      rfl
    · unfold health_check
      rw [if_neg hd]
      rfl
    · unfold health_check
      rw [if_neg hd]
      rfl
    · intro k v hmem
      unfold health_check at hmem
      rw [if_neg hd] at hmem
      simp only [List.mem_cons, List.not_mem_nil, or_false, Prod.mk.injEq] at hmem
      rcases hmem with ⟨_, h⟩ | ⟨_, h⟩ | ⟨_, h⟩ | ⟨_, h⟩ | ⟨_, h⟩ <;> cases h <;>
        simp

/-- Witness for the amended C6: the empty-key Azure fixture reports healthy
with `api_key_configured = false`. -/
theorem health_always_healthy_witness :
    (health_check stAzureNoKey).status = "healthy" ∧
    lookupCfg "api_key_configured" (health_check stAzureNoKey).configuration =
      some (ConfigValue.b false) :=
  ⟨(health_always_healthy stAzureNoKey).1,
   (health_always_healthy stAzureNoKey).2.1 rfl (by decide)⟩

/-- C7 counterexample: a configured endpoint that already ends in a doubled
`/chat/completions` is posted unchanged, so the URL does not end in exactly
one such segment. -/
theorem do_url_double_suffix_counterexample :
    digitalOceanPostUrl "https://h/chat/completions/chat/completions" =
      "https://h/chat/completions/chat/completions" ∧
    pyEndsWith (digitalOceanPostUrl "https://h/chat/completions/chat/completions")
      "/chat/completions/chat/completions" = true := by
  constructor
  · rfl
  · decide

/-- C7 (amended): the posted DigitalOcean URL always ends with
`/chat/completions`; when the slash-stripped endpoint already ends with the
suffix it is used unchanged (even if it pathologically ends with a repeated
suffix), otherwise the suffix is appended exactly once; and the whole
mapping is idempotent. -/
theorem do_url_suffix (endpoint : String) :
    pyEndsWith (digitalOceanPostUrl endpoint) "/chat/completions" = true ∧
    (pyEndsWith (pyRstripSlash endpoint) "/chat/completions" = true →
      digitalOceanPostUrl endpoint = pyRstripSlash endpoint) ∧
    (pyEndsWith (pyRstripSlash endpoint) "/chat/completions" = false →
      digitalOceanPostUrl endpoint = pyRstripSlash endpoint ++ "/chat/completions") ∧
    digitalOceanPostUrl (digitalOceanPostUrl endpoint) = digitalOceanPostUrl endpoint := by
  have hcases : ∀ e : String,
      pyEndsWith (digitalOceanChatUrl e) "/chat/completions" = true := by
    intro e
    unfold digitalOceanChatUrl
    by_cases hc : pyEndsWith e "/chat/completions" = true
    · rw [if_pos hc]
      exact hc
    · rw [if_neg hc]
      exact pyEndsWith_append e "/chat/completions"
  refine ⟨hcases _, ?_, ?_, ?_⟩
  · intro h
    unfold digitalOceanPostUrl digitalOceanChatUrl
    rw [if_pos h]
  · intro h
    unfold digitalOceanPostUrl digitalOceanChatUrl
    rw [if_neg ?hneg]
    case hneg => rw [h]; exact Bool.false_ne_true
  · have h1 : pyEndsWith (digitalOceanPostUrl endpoint) "/chat/completions" = true :=
      hcases _
    show digitalOceanChatUrl (pyRstripSlash (digitalOceanPostUrl endpoint)) = _
    rw [rstrip_keeps_chat_suffix _ h1]
    unfold digitalOceanChatUrl
    rw [if_pos h1]

/-- Witness for the amended C7 at the default DigitalOcean endpoint. -/
theorem do_url_suffix_witness :
    digitalOceanPostUrl "https://inference.do-ai.run/v1" =
      pyRstripSlash "https://inference.do-ai.run/v1" ++ "/chat/completions" :=
  (do_url_suffix "https://inference.do-ai.run/v1").2.2.1 (by decide)

/-- C10: for every provider value whose lowercase form is not
`digitalocean` — unrecognized providers included — the model-name resolver
returns the Azure model and the health endpoint reports the full Azure
configuration summary with status healthy. -/
theorem unknown_provider_reports_azure (st : Settings)
    (h : pyLower st.AI_PROVIDER ≠ "digitalocean") :
    get_model_name st = st.AZURE_OPENAI_MODEL ∧
    health_check st =
      { status := "healthy"
        message := "Service is running"
        configuration :=
          [("ai_provider", ConfigValue.s st.AI_PROVIDER),
           ("endpoint_configured", ConfigValue.b (st.AZURE_OPENAI_ENDPOINT != "")),
           ("api_key_configured", ConfigValue.b (st.AZURE_OPENAI_API_KEY != "")),
           ("model", ConfigValue.s st.AZURE_OPENAI_MODEL),
           ("api_version", ConfigValue.s st.AZURE_OPENAI_API_VERSION)] } := by
  constructor
  · unfold get_model_name
    rw [if_neg h]
  · unfold health_check
    rw [if_neg h]

/-- Witness for C10 at the unrecognized provider value `aws`. -/
theorem unknown_provider_reports_azure_witness :
    get_model_name stAws = "gpt-4" ∧ (health_check stAws).status = "healthy" :=
  ⟨(unknown_provider_reports_azure stAws (by decide)).1,
   by rw [(unknown_provider_reports_azure stAws (by decide)).2]⟩

end AIAPI
